import Mathlib

/-!
Shallow embedding of the krpc-telemetry acquisition/sampling core:
`krpc_telemetry/krpc_streams.py` (stream handles, registry, factory) and
`krpc_telemetry/telemetry/strategy.py` (decimation and accumulation).

External collaborators (the kRPC transport, pandas, the plotting backend) are
modelled by explicit data: a stream is identified by the accessor chain the
factory requests from the connection, reading a stream's current raw value is
a parameter of `collect_data`, a dataframe is a column list plus an ordered
list of index/row pairs, and the plotting block at the end of
`OrbitalVelocityStrategy._collect_data` is a parameter (`Sink`) that may
report a raised exception.
-/

/-- Modelled from the spec: the `TelemetryType` enumeration is declared in
`krpc_telemetry/telemetry/__init__.py`, which is not among the provided
source files.  The spec's data model (§3) enumerates exactly these thirteen
kinds, matching the thirteen branches of `KrpcTelemetryStreamFactory.create`. -/
inductive TelemetryType where
  | MET
  | ORBITAL_SPEED
  | SURFACE_SPEED
  | SURFACE_HORIZONTAL_SPEED
  | SURFACE_VERTICAL_SPEED
  | ORBITAL_APOAPSIS
  | ORBITAL_PERIAPSIS
  | G_FORCE
  | CENTER_OF_MASS
  | ATMOSPHERE_DENSITY
  | DYNAMIC_PRESSURE
  | STATIC_PRESSURE
  | AERODYNAMIC_FORCE
  deriving DecidableEq

/-- A Python value passed as the `telemetry_type` argument of
`KrpcTelemetryStreamFactory.create`: either a member of the `TelemetryType`
enumeration or any other value (Python is dynamically typed), the latter kept
only as the string `%s` renders it to in the error message. -/
inductive KindValue where
  | known (t : TelemetryType)
  | other (s : String)
  deriving DecidableEq

/-- Python's `round` on rationals: nearest integer, ties to even
(the rounding mode of `round` in Python 3). -/
def pyRoundHalfEven (q : ℚ) : ℤ :=
  if q - ⌊q⌋ < 1 / 2 then ⌊q⌋
  else if 1 / 2 < q - ⌊q⌋ then ⌊q⌋ + 1
  else if ⌊q⌋ % 2 = 0 then ⌊q⌋ else ⌊q⌋ + 1

/-- The three transform lambdas appearing in `KrpcTelemetryStreamFactory.create`,
defunctionalised: `floorT` is `lambda value: math.floor(value)`, `round1` is
`lambda value: round(value, 1)`, `kmRound0` is `lambda value: round(value/1000, 0)`. -/
inductive Transform where
  | floorT
  | round1
  | kmRound0
  deriving DecidableEq

/-- Semantics of the transform lambdas on rational raw values. -/
def applyTransform : Transform → ℚ → ℚ
  | .floorT, v => (⌊v⌋ : ℚ)
  | .round1, v => (pyRoundHalfEven (v * 10) : ℚ) / 10
  | .kmRound0, v => (pyRoundHalfEven (v / 1000) : ℚ)

/-- The object a stream's accessor chain starts from: `self._vessel`,
`self._vessel.orbit`, or the cached `self._orbit_reference_fight` flight.
(`self._vessel_reference_flight` is cached by the factory but no branch of
`create` reads from it.) -/
inductive StreamSource where
  | vessel
  | vesselOrbit
  | orbitReferenceFlight
  deriving DecidableEq

/-- The accessor handed to `conn.add_stream(getattr, source, attr)`. -/
structure Accessor where
  source : StreamSource
  attr : String
  deriving DecidableEq

/-- `KrpcTelemetryStream.__init__`: the handle stores its telemetry type, the
underlying stream (identified by its accessor), the rate written to
`stream.rate`, and the optional transform function. -/
structure KrpcTelemetryStream where
  telemetry_type : TelemetryType
  stream : Accessor
  rate : ℚ
  transform_function : Option Transform
  deriving DecidableEq

/-- The `value` property: read the stream's current raw value and run it
through the transform function if present, otherwise pass it through. -/
def KrpcTelemetryStream.value (h : KrpcTelemetryStream) (raw : ℚ) : ℚ :=
  match h.transform_function with
  | some t => applyTransform t raw
  | none => raw

/-- `KrpcTelemetryStreamCollection._streams`: a Python dict keyed by telemetry
type, modelled as an insertion-ordered association list with unique keys. -/
abbrev Registry := List (TelemetryType × KrpcTelemetryStream)

/-- `register_telemetry`: insert only when the telemetry type is not already a
key (`if telemetry.telemetry_type not in self._streams.keys()`). -/
def KrpcTelemetryStreamCollection.register_telemetry (r : Registry)
    (telemetry : KrpcTelemetryStream) : Registry :=
  if telemetry.telemetry_type ∈ r.map Prod.fst then r
  else r ++ [(telemetry.telemetry_type, telemetry)]

/-- `has_telemetry`: membership test on the dict's keys. -/
def KrpcTelemetryStreamCollection.has_telemetry (r : Registry)
    (telemetry_type : TelemetryType) : Bool :=
  decide (telemetry_type ∈ r.map Prod.fst)

/-- `destroy_telemetries`: destroy every handle (a transport effect outside
this model), then `self._streams.clear()`. -/
def KrpcTelemetryStreamCollection.destroy_telemetries (_r : Registry) : Registry :=
  []

/-- `collect_data`: one pass over the registered handles, reading each one's
`value`; `read` supplies the underlying stream's current raw value. -/
def KrpcTelemetryStreamCollection.collect_data (r : Registry)
    (read : Accessor → ℚ) : List (TelemetryType × ℚ) :=
  r.map fun p => (p.2.telemetry_type, p.2.value (read p.2.stream))

/-- Dict lookup on the registry, keyed by telemetry type. -/
def KrpcTelemetryStreamCollection.lookupKind :
    Registry → TelemetryType → Option KrpcTelemetryStream
  | [], _ => none
  | p :: r, k => if p.1 = k then some p.2 else KrpcTelemetryStreamCollection.lookupKind r k

/-- The first handle of a given kind in a registration sequence (the handle
the spec says must survive duplicate registrations). -/
def firstOfKind : List KrpcTelemetryStream → TelemetryType → Option KrpcTelemetryStream
  | [], _ => none
  | h :: hs, k => if h.telemetry_type = k then some h else firstOfKind hs k

/-- `KrpcTelemetryStreamFactory` state: the default rate given to
`__init__` and the two lazily-populated flight caches
(`self._orbit_reference_fight`, `self._vessel_reference_flight`), `none`
standing for Python `None`. -/
structure KrpcTelemetryStreamFactory where
  default_rate : ℚ
  orbit_reference_fight : Option Unit
  vessel_reference_flight : Option Unit
  deriving DecidableEq

/-- A factory as `__init__` leaves it (default rate 1, both flight caches
`None`). -/
def freshFactory : KrpcTelemetryStreamFactory := ⟨1, none, none⟩

/-- `KrpcTelemetryStreamFactory.create`: first the guard
`if not self._orbit_reference_fight:` populates both flight caches, then a
chain of equality tests on `telemetry_type` selects the accessor, rate and
transform of the returned `KrpcTelemetryStream`; a value matching no branch
reaches `raise ValueError("Telemetry %s unknown" % telemetry_type)`. -/
def KrpcTelemetryStreamFactory.create (f : KrpcTelemetryStreamFactory)
    (telemetry_type : KindValue) :
    KrpcTelemetryStreamFactory × Except String KrpcTelemetryStream :=
  let f := if f.orbit_reference_fight = none then
      { f with orbit_reference_fight := some (), vessel_reference_flight := some () }
    else f
  match telemetry_type with
  | .known .MET =>
      (f, .ok ⟨.MET, ⟨.vessel, "met"⟩, f.default_rate, some .floorT⟩)
  | .known .ORBITAL_SPEED =>
      (f, .ok ⟨.ORBITAL_SPEED, ⟨.vesselOrbit, "speed"⟩, f.default_rate, some .round1⟩)
  | .known .SURFACE_SPEED =>
      (f, .ok ⟨.SURFACE_SPEED, ⟨.orbitReferenceFlight, "speed"⟩, f.default_rate, some .round1⟩)
  | .known .SURFACE_HORIZONTAL_SPEED =>
      (f, .ok ⟨.SURFACE_HORIZONTAL_SPEED, ⟨.orbitReferenceFlight, "horizontal_speed"⟩,
        f.default_rate, some .round1⟩)
  | .known .SURFACE_VERTICAL_SPEED =>
      (f, .ok ⟨.SURFACE_VERTICAL_SPEED, ⟨.orbitReferenceFlight, "vertical_speed"⟩,
        f.default_rate, some .round1⟩)
  | .known .ORBITAL_APOAPSIS =>
      (f, .ok ⟨.ORBITAL_APOAPSIS, ⟨.vesselOrbit, "apoapsis_altitude"⟩,
        f.default_rate, some .kmRound0⟩)
  | .known .ORBITAL_PERIAPSIS =>
      (f, .ok ⟨.ORBITAL_PERIAPSIS, ⟨.vesselOrbit, "periapsis_altitude"⟩,
        f.default_rate, some .kmRound0⟩)
  | .known .G_FORCE =>
      (f, .ok ⟨.G_FORCE, ⟨.orbitReferenceFlight, "g_force"⟩, f.default_rate, some .round1⟩)
  | .known .CENTER_OF_MASS =>
      (f, .ok ⟨.CENTER_OF_MASS, ⟨.orbitReferenceFlight, "center_of_mass"⟩,
        f.default_rate, none⟩)
  | .known .ATMOSPHERE_DENSITY =>
      (f, .ok ⟨.ATMOSPHERE_DENSITY, ⟨.orbitReferenceFlight, "atmosphere_density"⟩,
        f.default_rate, none⟩)
  | .known .DYNAMIC_PRESSURE =>
      (f, .ok ⟨.DYNAMIC_PRESSURE, ⟨.orbitReferenceFlight, "dynamic_pressure"⟩,
        f.default_rate, none⟩)
  | .known .STATIC_PRESSURE =>
      (f, .ok ⟨.STATIC_PRESSURE, ⟨.orbitReferenceFlight, "static_pressure"⟩,
        f.default_rate, none⟩)
  | .known .AERODYNAMIC_FORCE =>
      (f, .ok ⟨.AERODYNAMIC_FORCE, ⟨.orbitReferenceFlight, "aerodynamic_force"⟩,
        f.default_rate, none⟩)
  | .other s => (f, .error ("Telemetry " ++ s ++ " unknown"))

/-- The stream `create` returns for a kind inside the enumeration, requested
from a fresh factory (`none` never occurs; see `create_unknown_kind`). -/
def createdStream (t : TelemetryType) : Option KrpcTelemetryStream :=
  (freshFactory.create (.known t)).2.toOption

/-- A pandas dataframe as this code uses it: a list of non-index columns, the
name of the index column (set by `set_index`), and the ordered index/row
pairs.  `pd.DataFrame()` is `⟨[], none, []⟩`. -/
structure DFrame where
  cols : List TelemetryType
  index_name : Option TelemetryType
  rows : List (Int × List ℚ)
  deriving DecidableEq

/-- `pd.DataFrame()`, the table `TelemetryStrategy.__init__` starts from. -/
def emptyDFrame : DFrame := ⟨[], none, []⟩

/-- `pd.concat([d1, d2])`, specialised to its only use here: both frames share
the same columns and index name, so concatenation appends the rows. -/
def DFrame.concat (d1 d2 : DFrame) : DFrame :=
  ⟨d1.cols, d1.index_name, d1.rows ++ d2.rows⟩

/-- The `data` dict handed to `collect_data`: a value for each telemetry type. -/
abbrev Snapshot := TelemetryType → ℚ

/-- `TelemetryStrategy` instance state: `self._collect_every_secs`,
`self._lastMet` (initially the sentinel `-1`), `self._dataframe`, and
`OrbitalVelocityStrategy.self.fig` (the plot handle, initially `None`). -/
structure TelemetryStrategy where
  collect_every_secs : Int
  lastMet : Int
  dataframe : DFrame
  fig : Option Unit
  deriving DecidableEq

/-- `TelemetryStrategy.__init__(collect_every_secs)`. -/
def TelemetryStrategy.init (collect_every_secs : Int) : TelemetryStrategy :=
  ⟨collect_every_secs, -1, emptyDFrame, none⟩

/-- The decimation guard of `TelemetryStrategy.collect_data`:
`self._lastMet != -1 and self._collect_every_secs + self._lastMet > met`. -/
def rejectsMet (cadence lastMet met : Int) : Bool :=
  lastMet != -1 && decide (cadence + lastMet > met)

/-- The guard applied to a strategy's own state. -/
def TelemetryStrategy.rejects (s : TelemetryStrategy) (met : Int) : Bool :=
  rejectsMet s.collect_every_secs s.lastMet met

/-- A snapshot is accepted when the guard does not return early. -/
def TelemetryStrategy.accepts (s : TelemetryStrategy) (met : Int) : Bool :=
  !(s.rejects met)

/-- The behaviour of the plotting block at the end of
`OrbitalVelocityStrategy._collect_data` (`plot`/`show`/`batch_update` on
`self.fig`): given the dataframe just stored and the current `fig`, the
external library yields a new `fig` and either returns or raises. -/
abbrev Sink := DFrame → Option Unit → Option Unit × Except String Unit

/-- The sink when the plotting backend works and is ignored. -/
def trivialSink : Sink := fun _ fig => (fig, .ok ())

/-- A sink whose refresh raises (plotting backend unavailable). -/
def failingSink : Sink := fun _ _ => (none, .error ("sink unavailable"))

/-- `OrbitalVelocityStrategy._collect_data`: build the one-row frame
`{MET: met, ORBITAL_SPEED: data[ORBITAL_SPEED]}` indexed by `MET`, store
`pd.concat([self._dataframe, row]) if len(self._dataframe) else row`, then run
the plotting block.  State mutations happen before the plotting block, whose
outcome is returned alongside the new state. -/
def OrbitalVelocityStrategy.collect_data_inner (sink : Sink) (met : Int)
    (data : Snapshot) (s : TelemetryStrategy) :
    TelemetryStrategy × Except String Unit :=
  let collected : DFrame := ⟨[.ORBITAL_SPEED], some .MET, [(met, [data .ORBITAL_SPEED])]⟩
  let df := if s.dataframe.rows.length != 0 then s.dataframe.concat collected else collected
  let s1 := { s with dataframe := df }
  let r := sink df s1.fig
  ({ s1 with fig := r.1 }, r.2)

/-- `TelemetryStrategy.collect_data`: return early when the guard rejects,
otherwise set `self._lastMet = met` and call the subclass hook
`self._collect_data(met, data)`. -/
def TelemetryStrategy.collect_data
    (inner : Int → Snapshot → TelemetryStrategy → TelemetryStrategy × Except String Unit)
    (s : TelemetryStrategy) (met : Int) (data : Snapshot) :
    TelemetryStrategy × Except String Unit :=
  if s.rejects met then (s, .ok ())
  else inner met data { s with lastMet := met }

/-- `OrbitalVelocityStrategy.__init__`: `super().__init__(collect_every_secs=5)`
and `self.fig = None`. -/
def OrbitalVelocityStrategy.init : TelemetryStrategy := TelemetryStrategy.init 5

/-- `OrbitalVelocityStrategy._create_dataframe`: the declared schema, a frame
with columns `[MET, ORBITAL_SPEED]` indexed by `MET` (note: `__init__` never
calls it for `self._dataframe`). -/
def OrbitalVelocityStrategy.create_dataframe : DFrame :=
  ⟨[.ORBITAL_SPEED], some .MET, []⟩

/-- `OrbitalVelocityStrategy.get_telemetry_types`. -/
def OrbitalVelocityStrategy.get_telemetry_types : List TelemetryType :=
  [.MET, .ORBITAL_SPEED]

/-- One `collect_data` call of the orbital-velocity strategy, with the sink's
outcome. -/
def ovStepE (sink : Sink) (s : TelemetryStrategy) (p : Int × Snapshot) :
    TelemetryStrategy × Except String Unit :=
  TelemetryStrategy.collect_data (OrbitalVelocityStrategy.collect_data_inner sink) s p.1 p.2

/-- One `collect_data` call, state only (the sink succeeding; by
`sink_failure_still_accumulates` the state does not depend on the sink). -/
def ovStep (s : TelemetryStrategy) (p : Int × Snapshot) : TelemetryStrategy :=
  (ovStepE trivialSink s p).1

/-- Feeding a whole snapshot sequence to a fresh orbital-velocity strategy. -/
def ovRun (ps : List (Int × Snapshot)) : TelemetryStrategy :=
  ps.foldl ovStep OrbitalVelocityStrategy.init

/-- The mets the decimation guard accepts, given the cadence and the stored
`lastMet`, replayed over a met sequence. -/
def runMets (cadence : Int) : Int → List Int → List Int
  | _, [] => []
  | lastMet, met :: ms =>
      if rejectsMet cadence lastMet met then runMets cadence lastMet ms
      else met :: runMets cadence met ms

/-- The mets accepted from a fresh strategy (`lastMet = -1`). -/
def acceptedMets (cadence : Int) (ms : List Int) : List Int :=
  runMets cadence (-1) ms

/-- The only table shapes a strategy ever holds: the empty `pd.DataFrame()`
from `__init__`, or the hard-coded orbital-speed schema. -/
def schemaOK (df : DFrame) : Prop :=
  (df.cols = [] ∧ df.index_name = none) ∨
  (df.cols = [.ORBITAL_SPEED] ∧ df.index_name = some .MET)

/-- What one accepted `collect_data` call does to the observable state, for
any sink behaviour: the new row is appended, `lastMet` becomes the accepted
met, the cadence is unchanged, and the columns/index are those of the
hard-coded row frame when the table was empty, else unchanged. -/
theorem ovStepE_accepted_parts (sink : Sink) (s : TelemetryStrategy) (met : Int) (d : Snapshot)
    (h : s.rejects met = false) :
    (ovStepE sink s (met, d)).1.dataframe.rows = s.dataframe.rows ++ [(met, [d .ORBITAL_SPEED])] ∧
    (ovStepE sink s (met, d)).1.lastMet = met ∧
    (ovStepE sink s (met, d)).1.collect_every_secs = s.collect_every_secs ∧
    (ovStepE sink s (met, d)).1.dataframe.cols =
      (if s.dataframe.rows.length ≠ 0 then s.dataframe.cols else [.ORBITAL_SPEED]) ∧
    (ovStepE sink s (met, d)).1.dataframe.index_name =
      (if s.dataframe.rows.length ≠ 0 then s.dataframe.index_name else some .MET) := by
  unfold ovStepE TelemetryStrategy.collect_data OrbitalVelocityStrategy.collect_data_inner
  simp only [h, Bool.false_eq_true, if_false]
  by_cases h0 : s.dataframe.rows.length = 0
  · simp [h0, List.length_eq_zero.mp h0, DFrame.concat]
  · simp [h0, DFrame.concat]

/-- A rejected snapshot leaves the strategy state untouched. -/
theorem ovStep_rejected (s : TelemetryStrategy) (met : Int) (d : Snapshot)
    (h : s.rejects met = true) : ovStep s (met, d) = s := by
  simp [ovStep, ovStepE, TelemetryStrategy.collect_data, h]

/-- Replaying `collect_data` over a snapshot sequence: the table's index
column is the starting index extended by exactly the mets the decimation
guard accepts. -/
theorem ovStep_rows_fst (ps : List (Int × Snapshot)) :
    ∀ s : TelemetryStrategy,
      ((ps.foldl ovStep s).dataframe.rows.map Prod.fst) =
        s.dataframe.rows.map Prod.fst ++
          runMets s.collect_every_secs s.lastMet (ps.map Prod.fst) := by
  induction ps with
  | nil => intro s; simp [runMets]
  | cons p ps ih =>
    intro s
    rcases p with ⟨met, d⟩
    by_cases h : s.rejects met = true
    · rw [List.foldl_cons, ovStep_rejected s met d h]
      rw [ih s]
      have hb : rejectsMet s.collect_every_secs s.lastMet met = true := h
      simp [runMets, hb]
    · have h' : s.rejects met = false := by simpa using h
      rw [List.foldl_cons, ih]
      obtain ⟨hrows, hlast, hcad, _, _⟩ :=
        ovStepE_accepted_parts trivialSink s met d h'
      have hstep : ovStep s (met, d) = (ovStepE trivialSink s (met, d)).1 := rfl
      rw [hstep, hrows, hlast, hcad]
      have hb : rejectsMet s.collect_every_secs s.lastMet met = false := h'
      simp [runMets, hb]

/-- One `collect_data` call preserves `schemaOK`. -/
theorem ovStep_schemaOK (s : TelemetryStrategy) (p : Int × Snapshot)
    (h : schemaOK s.dataframe) : schemaOK (ovStep s p).dataframe := by
  rcases p with ⟨met, d⟩
  by_cases hr : s.rejects met = true
  · rw [ovStep_rejected s met d hr]; exact h
  · have h' : s.rejects met = false := by simpa using hr
    obtain ⟨_, _, _, hcols, hidx⟩ := ovStepE_accepted_parts trivialSink s met d h'
    have hstep : ovStep s (met, d) = (ovStepE trivialSink s (met, d)).1 := rfl
    rw [hstep]
    unfold schemaOK
    rw [hcols, hidx]
    by_cases h0 : s.dataframe.rows.length ≠ 0
    · rw [if_pos h0, if_pos h0]
      exact h
    · rw [if_neg h0, if_neg h0]
      right; exact ⟨rfl, rfl⟩

/-- Every reachable table satisfies `schemaOK`. -/
theorem ovRun_schemaOK (ps : List (Int × Snapshot)) : schemaOK (ovRun ps).dataframe := by
  have key : ∀ (l : List (Int × Snapshot)) (s : TelemetryStrategy),
      schemaOK s.dataframe → schemaOK ((l.foldl ovStep s).dataframe) := by
    intro l
    induction l with
    | nil => intro s hs; exact hs
    | cons p l ih => intro s hs; exact ih _ (ovStep_schemaOK s p hs)
  exact key ps OrbitalVelocityStrategy.init (Or.inl ⟨rfl, rfl⟩)

/-- A kind present among the registry's keys has a handle under it. -/
theorem lookupKind_isSome_of_mem (r : Registry) (t : TelemetryType)
    (h : t ∈ r.map Prod.fst) :
    (KrpcTelemetryStreamCollection.lookupKind r t).isSome = true := by
  induction r with
  | nil => simp at h
  | cons p r ih =>
    rw [KrpcTelemetryStreamCollection.lookupKind]
    by_cases hp : p.1 = t
    · simp [hp]
    · rw [if_neg hp]
      apply ih
      simp only [List.map_cons, List.mem_cons] at h
      rcases h with h | h
      · exact absurd h.symm hp
      · exact h

/-- Appending one entry affects lookups only for kinds absent so far. -/
theorem lookupKind_append_single (r : Registry) (t : TelemetryType)
    (h : KrpcTelemetryStream) (k : TelemetryType) :
    KrpcTelemetryStreamCollection.lookupKind (r ++ [(t, h)]) k =
      (match KrpcTelemetryStreamCollection.lookupKind r k with
      | some v => some v
      | none => if t = k then some h else none) := by
  induction r with
  | nil =>
    simp only [List.nil_append]
    rw [KrpcTelemetryStreamCollection.lookupKind]
    by_cases ht : t = k
    · simp [ht, KrpcTelemetryStreamCollection.lookupKind]
    · simp [ht, KrpcTelemetryStreamCollection.lookupKind]
  | cons p r ih =>
    simp only [List.cons_append]
    rw [KrpcTelemetryStreamCollection.lookupKind, KrpcTelemetryStreamCollection.lookupKind]
    by_cases hp : p.1 = k
    · simp [hp]
    · rw [if_neg hp, if_neg hp, ih]

/-- Folding a registration sequence over any starting registry: existing
entries shadow the sequence, and kinds new to the registry get the sequence's
first handle of that kind. -/
theorem lookup_foldl (hs : List KrpcTelemetryStream) :
    ∀ (r : Registry) (k : TelemetryType),
      KrpcTelemetryStreamCollection.lookupKind
          (hs.foldl KrpcTelemetryStreamCollection.register_telemetry r) k =
        (match KrpcTelemetryStreamCollection.lookupKind r k with
        | some v => some v
        | none => firstOfKind hs k) := by
  induction hs with
  | nil =>
    intro r k
    cases hl : KrpcTelemetryStreamCollection.lookupKind r k <;> simp [firstOfKind, hl]
  | cons h hs ih =>
    intro r k
    rw [List.foldl_cons]
    by_cases hc : h.telemetry_type ∈ r.map Prod.fst
    · have e : KrpcTelemetryStreamCollection.register_telemetry r h = r := by
        simp [KrpcTelemetryStreamCollection.register_telemetry, hc]
      rw [e, ih r k]
      cases hl : KrpcTelemetryStreamCollection.lookupKind r k with
      | some v => rfl
      | none =>
        have hne : h.telemetry_type ≠ k := by
          intro he
          have := lookupKind_isSome_of_mem r k (he ▸ hc)
          rw [hl] at this
          simp at this
        simp [firstOfKind, hne]
    · have e : KrpcTelemetryStreamCollection.register_telemetry r h =
          r ++ [(h.telemetry_type, h)] := by
        simp [KrpcTelemetryStreamCollection.register_telemetry, hc]
      rw [e, ih, lookupKind_append_single]
      cases hl : KrpcTelemetryStreamCollection.lookupKind r k with
      | some v => rfl
      | none =>
        by_cases ht : h.telemetry_type = k
        · simp [firstOfKind, ht]
        · simp [firstOfKind, ht]

/-- Registration keeps the registry's keys duplicate-free. -/
theorem keys_nodup_foldl (hs : List KrpcTelemetryStream) :
    ∀ r : Registry, (r.map Prod.fst).Nodup →
      ((hs.foldl KrpcTelemetryStreamCollection.register_telemetry r).map Prod.fst).Nodup := by
  induction hs with
  | nil => intro r h; exact h
  | cons h hs ih =>
    intro r hr
    rw [List.foldl_cons]
    by_cases hc : h.telemetry_type ∈ r.map Prod.fst
    · have e : KrpcTelemetryStreamCollection.register_telemetry r h = r := by
        simp [KrpcTelemetryStreamCollection.register_telemetry, hc]
      rw [e]
      exact ih r hr
    · have e : KrpcTelemetryStreamCollection.register_telemetry r h =
          r ++ [(h.telemetry_type, h)] := by
        simp [KrpcTelemetryStreamCollection.register_telemetry, hc]
      rw [e]
      apply ih
      simp [List.nodup_append, hr, hc]

/-- With a non-negative cadence, replaying the decimation guard from a
non-negative `lastMet` over non-negative mets yields a non-decreasing chain
starting at `lastMet`. -/
theorem runMets_chain (cadence : Int) (hc : 0 ≤ cadence) :
    ∀ (ms : List Int) (lastMet : Int), 0 ≤ lastMet → (∀ m ∈ ms, 0 ≤ m) →
      List.Chain' (· ≤ ·) (lastMet :: runMets cadence lastMet ms) := by
  intro ms
  induction ms with
  | nil => intro lastMet _ _; simp [runMets]
  | cons m ms ih =>
    intro lastMet hl hm
    by_cases hr : rejectsMet cadence lastMet m = true
    · rw [runMets, if_pos hr]
      exact ih lastMet hl fun x hx => hm x (List.mem_cons_of_mem _ hx)
    · have hr' : rejectsMet cadence lastMet m = false := by simpa using hr
      rw [runMets, if_neg (by simp [hr'])]
      have hle : cadence + lastMet ≤ m := by
        simp [rejectsMet] at hr'
        omega
      rw [List.chain'_cons]
      exact ⟨by omega,
        ih m (hm m (List.mem_cons_self m ms)) fun x hx => hm x (List.mem_cons_of_mem _ hx)⟩

/-- C1 counterexample: with `collect_every_secs = 5`, feeding mets `[-1, 0]`
to a fresh strategy gets both snapshots accepted, although the claimed rule
requires the second to satisfy `0 >= lastAcceptedMet + 5 = 4`: accepting a
snapshot at met `-1` stores the sentinel back into `_lastMet`, so the
following snapshot bypasses the cadence test. -/
theorem collect_data_decimation_counterexample :
    acceptedMets 5 [-1, 0] = [-1, 0] ∧ ¬ ((-1 : Int) + 5 ≤ 0) := by decide

/-- C1 (amended): the first snapshot a strategy receives is accepted
unconditionally; afterwards a snapshot with met `M` is accepted iff the
stored last-accepted met equals the sentinel `-1` (possible only when a
snapshot with met `-1` was itself accepted) or
`M >= lastAcceptedMet + collect_every_secs`; rejected snapshots return
without error.  With `collect_every_secs = 5` and met sequence
`[0,1,4,5,6,9,10]` the accepted mets are exactly `[0,5,10]`. -/
theorem collect_data_decimation :
    (∀ (s : TelemetryStrategy) (met : Int), s.lastMet = -1 → s.accepts met = true) ∧
    (∀ (s : TelemetryStrategy) (met : Int), s.lastMet ≠ -1 →
      (s.accepts met = true ↔ s.collect_every_secs + s.lastMet ≤ met)) ∧
    acceptedMets 5 [0, 1, 4, 5, 6, 9, 10] = [0, 5, 10] := by
  refine ⟨?_, ?_, by decide⟩
  · intro s met h
    simp [TelemetryStrategy.accepts, TelemetryStrategy.rejects, rejectsMet, h]
  · intro s met h
    simp [TelemetryStrategy.accepts, TelemetryStrategy.rejects, rejectsMet, h]

/-- Witness for `collect_data_decimation` at concrete states. -/
theorem collect_data_decimation_witness :
    TelemetryStrategy.accepts (TelemetryStrategy.init 5) 0 = true ∧
    (TelemetryStrategy.accepts ⟨5, 0, emptyDFrame, none⟩ 7 = true ↔ (5 : Int) + 0 ≤ 7) :=
  ⟨collect_data_decimation.1 (TelemetryStrategy.init 5) 0 rfl,
   collect_data_decimation.2.1 ⟨5, 0, emptyDFrame, none⟩ 7 (by decide)⟩

/-- C3: folding any registration sequence into an empty registry leaves at
most one handle per kind (keys are duplicate-free), the handle found under
each kind is the first one registered with that kind, and registering an
already-present kind is a no-op rather than an error. -/
theorem register_first_wins (hs : List KrpcTelemetryStream) :
    (((hs.foldl KrpcTelemetryStreamCollection.register_telemetry []).map Prod.fst).Nodup) ∧
    (∀ k, KrpcTelemetryStreamCollection.lookupKind
        (hs.foldl KrpcTelemetryStreamCollection.register_telemetry []) k = firstOfKind hs k) ∧
    (∀ (r : Registry) (h : KrpcTelemetryStream),
      KrpcTelemetryStreamCollection.has_telemetry r h.telemetry_type = true →
      KrpcTelemetryStreamCollection.register_telemetry r h = r) := by
  refine ⟨keys_nodup_foldl hs [] (by simp), ?_, ?_⟩
  · intro k
    rw [lookup_foldl hs [] k]
    rfl
  · intro r h hmem
    rw [KrpcTelemetryStreamCollection.has_telemetry, decide_eq_true_eq] at hmem
    simp [KrpcTelemetryStreamCollection.register_telemetry, hmem]

/-- Witness for `register_first_wins`: a duplicate MET registration with a
different handle is dropped. -/
theorem register_first_wins_witness :
    KrpcTelemetryStreamCollection.register_telemetry
        [(.MET, ⟨.MET, ⟨.vessel, "met"⟩, 1, some .floorT⟩)]
        ⟨.MET, ⟨.vessel, "met"⟩, 2, none⟩ =
      [(.MET, ⟨.MET, ⟨.vessel, "met"⟩, 1, some .floorT⟩)] :=
  (register_first_wins []).2.2 [(.MET, ⟨.MET, ⟨.vessel, "met"⟩, 1, some .floorT⟩)]
    ⟨.MET, ⟨.vessel, "met"⟩, 2, none⟩ (by decide)

/-- C4: the accumulation table is append-only: after any snapshot sequence
the table's index column is exactly the accepted mets in acceptance order
(hence N accepted samples give N rows), an accepted sample extends the rows
by exactly the one new row keyed by its met (a strict end-extension: no
existing row is rewritten, truncated or reordered), and a rejected sample
leaves the state untouched. -/
theorem table_append_only (ps : List (Int × Snapshot)) :
    ((ovRun ps).dataframe.rows.map Prod.fst = acceptedMets 5 (ps.map Prod.fst)) ∧
    ((ovRun ps).dataframe.rows.length = (acceptedMets 5 (ps.map Prod.fst)).length) ∧
    (∀ (s : TelemetryStrategy) (met : Int) (d : Snapshot), s.accepts met = true →
      (ovStep s (met, d)).dataframe.rows = s.dataframe.rows ++ [(met, [d .ORBITAL_SPEED])]) ∧
    (∀ (s : TelemetryStrategy) (met : Int) (d : Snapshot), s.accepts met = false →
      ovStep s (met, d) = s) := by
  have h1 : (ovRun ps).dataframe.rows.map Prod.fst = acceptedMets 5 (ps.map Prod.fst) := by
    have := ovStep_rows_fst ps OrbitalVelocityStrategy.init
    simpa [ovRun, OrbitalVelocityStrategy.init, TelemetryStrategy.init, emptyDFrame,
      acceptedMets] using this
  refine ⟨h1, ?_, ?_, ?_⟩
  · have := congrArg List.length h1
    simpa using this
  · intro s met d h
    have h' : s.rejects met = false := by
      simpa [TelemetryStrategy.accepts] using h
    exact (ovStepE_accepted_parts trivialSink s met d h').1
  · intro s met d h
    have h' : s.rejects met = true := by
      simpa [TelemetryStrategy.accepts] using h
    exact ovStep_rejected s met d h'

/-- Witness for `table_append_only`: the first accepted sample appends one
row to the empty table. -/
theorem table_append_only_witness :
    (ovStep OrbitalVelocityStrategy.init (0, fun _ => 3)).dataframe.rows =
      OrbitalVelocityStrategy.init.dataframe.rows ++ [(0, [3])] :=
  (table_append_only []).2.2.1 OrbitalVelocityStrategy.init 0 (fun _ => 3) (by decide)

/-- C7 counterexample: `TelemetryStrategy.__init__` stores a plain
`pd.DataFrame()` — no columns, no index — not the schema declared by
`_create_dataframe` (which `__init__` never calls), so at
strategy-construction time the table's columns are not fixed by the
strategy's schema. -/
theorem schema_counterexample :
    OrbitalVelocityStrategy.init.dataframe ≠ OrbitalVelocityStrategy.create_dataframe ∧
    OrbitalVelocityStrategy.init.dataframe.cols = [] ∧
    OrbitalVelocityStrategy.init.dataframe.index_name = none ∧
    OrbitalVelocityStrategy.create_dataframe.cols = [.ORBITAL_SPEED] ∧
    OrbitalVelocityStrategy.create_dataframe.index_name = some .MET := by decide

/-- C7 (amended): the table is created empty (no columns) by `__init__`; its
columns are established at the first accepted sample by the strategy's own
hard-coded row construction — index `MET` plus an `ORBITAL_SPEED` column,
whatever snapshot is supplied, so the column set is never inferred from the
snapshot's contents — and every reachable table carries either no columns
(nothing accepted yet) or exactly that schema. -/
theorem schema_amended :
    (OrbitalVelocityStrategy.init.dataframe.cols = [] ∧
     OrbitalVelocityStrategy.init.dataframe.index_name = none) ∧
    (∀ (met : Int) (d : Snapshot),
      (ovStep OrbitalVelocityStrategy.init (met, d)).dataframe.cols = [.ORBITAL_SPEED] ∧
      (ovStep OrbitalVelocityStrategy.init (met, d)).dataframe.index_name = some .MET) ∧
    (∀ ps : List (Int × Snapshot),
      ((ovRun ps).dataframe.cols = [] ∧ (ovRun ps).dataframe.index_name = none) ∨
      ((ovRun ps).dataframe.cols = [.ORBITAL_SPEED] ∧
        (ovRun ps).dataframe.index_name = some .MET)) := by
  refine ⟨⟨rfl, rfl⟩, ?_, fun ps => ovRun_schemaOK ps⟩
  intro met d
  have h' : OrbitalVelocityStrategy.init.rejects met = false := by
    simp [OrbitalVelocityStrategy.init, TelemetryStrategy.init, TelemetryStrategy.rejects,
      rejectsMet]
  obtain ⟨_, _, _, hcols, hidx⟩ :=
    ovStepE_accepted_parts trivialSink OrbitalVelocityStrategy.init met d h'
  have hstep : ovStep OrbitalVelocityStrategy.init (met, d) =
      (ovStepE trivialSink OrbitalVelocityStrategy.init (met, d)).1 := rfl
  rw [hstep, hcols, hidx]
  exact ⟨by simp [OrbitalVelocityStrategy.init, TelemetryStrategy.init, emptyDFrame],
    by simp [OrbitalVelocityStrategy.init, TelemetryStrategy.init, emptyDFrame]⟩

/-- C8: for every accepted snapshot the new row is appended and `_lastMet`
updated whatever the rendering sink then does — the state mutations in
`_collect_data` precede the plotting block, so a sink that is unavailable or
raises cannot undo or block the accumulation. -/
theorem sink_failure_still_accumulates (sink : Sink) (s : TelemetryStrategy) (met : Int)
    (d : Snapshot) (h : s.accepts met = true) :
    ((ovStepE sink s (met, d)).1.dataframe.rows =
      s.dataframe.rows ++ [(met, [d .ORBITAL_SPEED])]) ∧
    ((ovStepE sink s (met, d)).1.lastMet = met) := by
  have h' : s.rejects met = false := by
    simpa [TelemetryStrategy.accepts] using h
  obtain ⟨hrows, hlast, _, _, _⟩ := ovStepE_accepted_parts sink s met d h'
  exact ⟨hrows, hlast⟩

/-- Witness for `sink_failure_still_accumulates`: with a sink that raises,
the row is still appended and `_lastMet` still updated, while the raised
error propagates. -/
theorem sink_failure_still_accumulates_witness :
    ((ovStepE failingSink OrbitalVelocityStrategy.init (0, fun _ => 3)).1.dataframe.rows =
        OrbitalVelocityStrategy.init.dataframe.rows ++ [(0, [3])] ∧
      (ovStepE failingSink OrbitalVelocityStrategy.init (0, fun _ => 3)).1.lastMet = 0) ∧
    (ovStepE failingSink OrbitalVelocityStrategy.init (0, fun _ => 3)).2 =
      .error ("sink unavailable") :=
  ⟨sink_failure_still_accumulates failingSink OrbitalVelocityStrategy.init 0 (fun _ => 3)
      (by decide),
   rfl⟩

/-- C10: the sentinel collision: a snapshot with met `-1` arriving in the
initial state is accepted and processed (its row lands in the table) yet
leaves `_lastMet` equal to the sentinel `-1`, so any immediately following
snapshot is again accepted unconditionally, whatever the cadence; for
non-negative cadences and non-negative met sequences the accepted mets are
non-decreasing, while the sequence `[-1, -5]` is accepted in full and
decreases. -/
theorem sentinel_collision :
    (∀ d : Snapshot,
      OrbitalVelocityStrategy.init.accepts (-1) = true ∧
      (ovStep OrbitalVelocityStrategy.init (-1, d)).lastMet = -1 ∧
      (ovStep OrbitalVelocityStrategy.init (-1, d)).dataframe.rows =
        [(-1, [d .ORBITAL_SPEED])]) ∧
    (∀ (cadence met : Int) (df : DFrame) (fig : Option Unit),
      TelemetryStrategy.accepts ⟨cadence, -1, df, fig⟩ met = true) ∧
    (∀ (cadence : Int) (ms : List Int), 0 ≤ cadence → (∀ m ∈ ms, 0 ≤ m) →
      List.Chain' (· ≤ ·) (acceptedMets cadence ms)) ∧
    (acceptedMets 5 [-1, -5] = [-1, -5] ∧ ¬ List.Chain' (· ≤ ·) ([-1, -5] : List Int)) := by
  refine ⟨?_, ?_, ?_, by decide, by norm_num [List.chain'_cons]⟩
  · intro d
    have h' : OrbitalVelocityStrategy.init.rejects (-1) = false := by decide
    obtain ⟨hrows, hlast, _, _, _⟩ :=
      ovStepE_accepted_parts trivialSink OrbitalVelocityStrategy.init (-1) d h'
    refine ⟨by decide, hlast, ?_⟩
    have hstep : ovStep OrbitalVelocityStrategy.init (-1, d) =
        (ovStepE trivialSink OrbitalVelocityStrategy.init (-1, d)).1 := rfl
    rw [hstep, hrows]
    rfl
  · intro cadence met df fig
    simp [TelemetryStrategy.accepts, TelemetryStrategy.rejects, rejectsMet]
  · intro cadence ms hc hm
    rcases ms with _ | ⟨m, ms⟩
    · simp [acceptedMets, runMets]
    · rw [acceptedMets, runMets, if_neg (by simp [rejectsMet])]
      exact runMets_chain cadence hc ms m (hm m (List.mem_cons_self m ms))
        fun x hx => hm x (List.mem_cons_of_mem _ hx)

/-- Witness for `sentinel_collision`: the monotonicity clause at a concrete
non-negative sequence. -/
theorem sentinel_collision_witness :
    List.Chain' (· ≤ ·) (acceptedMets 5 [0, 3, 7]) :=
  sentinel_collision.2.2.1 5 [0, 3, 7] (by decide) (by decide)

/-- C2: per-kind unit transforms in `KrpcTelemetryStreamFactory.create` match
the spec's enumeration: mission-elapsed-time floors (raw 12.99 yields 12);
the four speed kinds and g-force round to 1 decimal; apoapsis and periapsis
divide by 1000 and round to 0 decimals (raw 1234567 yields 1235); the five
remaining kinds get no transform, so their `value` is a pass-through. -/
theorem create_transforms :
    (createdStream .MET).map (·.transform_function) = some (some .floorT) ∧
    applyTransform .floorT (1299 / 100) = 12 ∧
    (createdStream .ORBITAL_SPEED).map (·.transform_function) = some (some .round1) ∧
    (createdStream .SURFACE_SPEED).map (·.transform_function) = some (some .round1) ∧
    (createdStream .SURFACE_HORIZONTAL_SPEED).map (·.transform_function) = some (some .round1) ∧
    (createdStream .SURFACE_VERTICAL_SPEED).map (·.transform_function) = some (some .round1) ∧
    (createdStream .G_FORCE).map (·.transform_function) = some (some .round1) ∧
    (createdStream .ORBITAL_APOAPSIS).map (·.transform_function) = some (some .kmRound0) ∧
    (createdStream .ORBITAL_PERIAPSIS).map (·.transform_function) = some (some .kmRound0) ∧
    applyTransform .kmRound0 1234567 = 1235 ∧
    (createdStream .CENTER_OF_MASS).map (·.transform_function) = some none ∧
    (createdStream .ATMOSPHERE_DENSITY).map (·.transform_function) = some none ∧
    (createdStream .DYNAMIC_PRESSURE).map (·.transform_function) = some none ∧
    (createdStream .STATIC_PRESSURE).map (·.transform_function) = some none ∧
    (createdStream .AERODYNAMIC_FORCE).map (·.transform_function) = some none ∧
    (∀ raw : ℚ, (createdStream .CENTER_OF_MASS).map (fun h => h.value raw) = some raw) ∧
    (∀ raw : ℚ, (createdStream .ATMOSPHERE_DENSITY).map (fun h => h.value raw) = some raw) ∧
    (∀ raw : ℚ, (createdStream .DYNAMIC_PRESSURE).map (fun h => h.value raw) = some raw) ∧
    (∀ raw : ℚ, (createdStream .STATIC_PRESSURE).map (fun h => h.value raw) = some raw) ∧
    (∀ raw : ℚ, (createdStream .AERODYNAMIC_FORCE).map (fun h => h.value raw) = some raw) :=
  ⟨rfl, by norm_num [applyTransform], rfl, rfl, rfl, rfl, rfl, rfl, rfl,
   by norm_num [applyTransform, pyRoundHalfEven], rfl, rfl, rfl, rfl, rfl,
   fun _ => rfl, fun _ => rfl, fun _ => rfl, fun _ => rfl, fun _ => rfl⟩

/-- C5: for any value outside the `TelemetryType` enumeration, `create`
raises `ValueError("Telemetry %s unknown" % telemetry_type)` naming the
offending value and returns no handle (the `Except` carries no stream in the
error case); for every kind inside the enumeration it returns a handle whose
`telemetry_type` equals the requested kind. -/
theorem create_unknown_kind :
    (∀ (f : KrpcTelemetryStreamFactory) (s : String),
      (f.create (.other s)).2 = .error ("Telemetry " ++ s ++ " unknown")) ∧
    (∀ (f : KrpcTelemetryStreamFactory) (t : TelemetryType),
      ∃ h, (f.create (.known t)).2 = .ok h ∧ h.telemetry_type = t) :=
  ⟨fun _ _ => rfl, fun f t => by cases t <;> exact ⟨_, rfl, rfl⟩⟩

/-- C9: `destroy_telemetries` clears the registry, so a `collect_data`
immediately after returns the empty mapping for every prior registry state
and every transport read; `destroy_telemetries` on an empty registry leaves
it empty. -/
theorem destroy_then_collect (r : Registry) (read : Accessor → ℚ) :
    KrpcTelemetryStreamCollection.collect_data
        (KrpcTelemetryStreamCollection.destroy_telemetries r) read = [] ∧
    KrpcTelemetryStreamCollection.destroy_telemetries ([] : Registry) = [] :=
  ⟨rfl, rfl⟩

/-- C6 counterexample: a `create` call for mission-elapsed-time — a kind whose
stream reads from the vessel directly, not from a flight frame — on a fresh
factory populates both flight-frame cache fields, contradicting the claim
that such a call leaves them unchanged. -/
theorem flight_frames_counterexample :
    freshFactory.orbit_reference_fight = none ∧
    freshFactory.vessel_reference_flight = none ∧
    (freshFactory.create (.known .MET)).1.orbit_reference_fight = some () ∧
    (freshFactory.create (.known .MET)).1.vessel_reference_flight = some () := by
  decide

/-- C6 (amended): the two derived flight frames are computed at most once per
factory instance and cached for its lifetime — once the cache is populated,
every further `create` call leaves the factory unchanged — but they are
constructed eagerly by the first `create` call whatever kind it requests, not
only when a kind needing them is requested. -/
theorem flight_frames_amended :
    (∀ (f : KrpcTelemetryStreamFactory) (t : KindValue),
      (f.create t).1.orbit_reference_fight = some ()) ∧
    (∀ (f : KrpcTelemetryStreamFactory) (t : KindValue),
      f.orbit_reference_fight ≠ none → (f.create t).1 = f) := by
  constructor
  · intro f t
    rcases f with ⟨rate, orb, ves⟩
    rcases orb with _ | u
    · rcases t with t | s
      · cases t <;> rfl
      · rfl
    · rcases t with t | s
      · cases t <;> rfl
      · rfl
  · intro f t h
    rcases f with ⟨rate, orb, ves⟩
    rcases orb with _ | u
    · exact absurd rfl h
    · rcases t with t | s
      · cases t <;> rfl
      · rfl

/-- Witness for `flight_frames_amended`: a factory whose caches are populated
is left unchanged by a further `create` call. -/
theorem flight_frames_amended_witness :
    ((KrpcTelemetryStreamFactory.mk 1 (some ()) (some ())).create (.known .MET)).1 =
      KrpcTelemetryStreamFactory.mk 1 (some ()) (some ()) :=
  flight_frames_amended.2 ⟨1, some (), some ()⟩ (.known .MET) (by decide)
